import Mathlib

/-!
Verification of the UUV position-stabilization control system.

The definitions below are a shallow embedding of the Python sources in
`src/uuv_control/`.  Machine floats are modelled by rationals (ℚ), wall-clock
reads (`time.time()`) become an explicit `now : ℚ` argument, and the mutable
object state of each class becomes an explicit state record threaded through
the functions.  Python's `int(x)` conversion (truncation toward zero) is
modelled by `truncQ`.
-/

/-- Truncation toward zero, the semantics of Python's `int()` applied to a
float and of numpy's `astype(int)`. -/
def truncQ (q : ℚ) : ℤ := if 0 ≤ q then ⌊q⌋ else ⌈q⌉

/-- State of one `PIDController` object (src/uuv_control/pid_controller.py).
The gains and limits are set at construction and never mutated; the last four
fields are the mutable PID state. -/
structure PIDController where
  kp : ℚ
  ki : ℚ
  kd : ℚ
  max_output : ℚ := 200
  min_output : ℚ := -200
  deadband : ℚ := 0
  previous_error : ℚ := 0
  integral : ℚ := 0
  last_time : ℚ := 0
  in_deadband : Bool := false
deriving DecidableEq, Repr

namespace PIDController

/-- The time step actually used by `compute`: `dt = now - last_time`, replaced
by the fixed minimum 1e-4 when it is not positive
(pid_controller.py lines 48-52). -/
def dtUsed (c : PIDController) (now : ℚ) : ℚ :=
  if now - c.last_time ≤ 0 then 1/10000 else now - c.last_time

/-- The error after deadband suppression: forced to zero when
`|error| ≤ deadband` (pid_controller.py lines 56-58). -/
def effError (c : PIDController) (error : ℚ) : ℚ :=
  if |error| ≤ c.deadband then 0 else error

/-- The integral accumulator after the deadband step (reset to zero inside the
deadband) but before the `integral += error * dt` update. -/
def preIntegral (c : PIDController) (error : ℚ) : ℚ :=
  if |error| ≤ c.deadband then 0 else c.integral

/-- The integral accumulator right after `self.integral += error * dt`
(pid_controller.py line 70). -/
def intAfterAdd (c : PIDController) (error now : ℚ) : ℚ :=
  c.preIntegral error + c.effError error * c.dtUsed now

/-- The unclamped PID output
`kp*error + ki*integral + kd*(error - previous_error)/dt`
(pid_controller.py lines 73-76). -/
def rawOutput (c : PIDController) (error now : ℚ) : ℚ :=
  c.kp * c.effError error + c.ki * c.intAfterAdd error now
    + c.kd * ((c.effError error - c.previous_error) / c.dtUsed now)

/-- `PIDController.compute` (pid_controller.py lines 38-91): deadband, integral
update, derivative, output, anti-windup clamp with integral undo, state
persistence.  Returns the output together with the updated object state. -/
def compute (c : PIDController) (error now : ℚ) : ℚ × PIDController :=
  let err := c.effError error
  let dt := c.dtUsed now
  let integ := c.intAfterAdd error now
  let out := c.rawOutput error now
  let db : Bool := decide (|error| ≤ c.deadband)
  if c.max_output < out then
    (c.max_output,
     { c with previous_error := err, integral := integ - err * dt,
              last_time := now, in_deadband := db })
  else if out < c.min_output then
    (c.min_output,
     { c with previous_error := err, integral := integ - err * dt,
              last_time := now, in_deadband := db })
  else
    (out,
     { c with previous_error := err, integral := integ,
              last_time := now, in_deadband := db })

/-- Iterating `compute` with a constant error, each call spaced `dt` after the
previous one (models a sustained constant error over successive cycles). -/
def runConst (c : PIDController) (e dt : ℚ) : ℕ → PIDController
  | 0 => c
  | n + 1 =>
      ((c.runConst e dt n).compute e ((c.runConst e dt n).last_time + dt)).2

end PIDController

/-- The per-marker measurement record produced by
`ImageProcessor.calculate_marker_info` (src/uuv_control/image_processor.py).
`center` is stored as integers because the source applies `astype(int)` to the
mean of the corners; the four edge lengths are named after the source's
`edge_names = [UST, SAG, ALT, SOL]` (top, right, bottom, left). -/
structure Measurement where
  area : ℚ
  ust : ℚ
  sag : ℚ
  alt : ℚ
  sol : ℚ
  center : ℤ × ℤ
deriving DecidableEq, Repr

/-- Clamping a PWM value to the legal range, as done at the end of every
`calculate_control`: `max(min_pwm, min(max_pwm, int(pwm)))`. -/
def clampPwm (minP maxP : ℤ) (q : ℚ) : ℤ := max minP (min maxP (truncQ q))

/-- The PID configuration installed by `LateralController.__init__`
(lateral_controller.py lines 28-35): Kp=2.0, Ki=0.02, Kd=0.4, output bounds
±200, deadband 15 px, fresh state. -/
def lateralPidInit : PIDController :=
  { kp := 2, ki := 1/50, kd := 2/5, max_output := 200, min_output := -200,
    deadband := 15 }

/-- State of a `LateralController` object
(src/uuv_control/lateral_controller.py).  The constructor fixes the PWM
constants and the PID gains; `x_pid` carries the mutable PID state. -/
structure LateralController where
  frame_width : ℤ := 640
  frame_height : ℤ := 480
  x_pid : PIDController := lateralPidInit
  lateral_pwm : ℤ := 1500
deriving DecidableEq, Repr

namespace LateralController

/-- The controller produced by `LateralController.__init__`. -/
def init (w h : ℤ) : LateralController := { frame_width := w, frame_height := h }

/-- `self.target_center_x = frame_width // 2` (Python floor division). -/
def target_center_x (c : LateralController) : ℤ := Int.fdiv c.frame_width 2

/-- `LateralController.calculate_control` (lateral_controller.py lines 46-81):
no marker short-circuits to neutral without touching the PID; otherwise the
error `center_x - target_center_x` is fed to the PID and the PWM is
`neutral_pwm + pid_output`, truncated and clamped to `[min_pwm, max_pwm]`. -/
def calculate_control (c : LateralController) (marker_info : Option Measurement)
    (now : ℚ) : ℤ × LateralController :=
  match marker_info with
  | none => (1500, { c with lateral_pwm := 1500 })
  | some info =>
      let x_error : ℚ := (info.center.1 : ℚ) - (c.target_center_x : ℚ)
      let r := c.x_pid.compute x_error now
      let pwm : ℤ := clampPwm 1100 1900 (1500 + r.1)
      (pwm, { c with x_pid := r.2, lateral_pwm := pwm })

end LateralController

/-- State of a `YawController` object (src/uuv_control/yaw_controller.py). -/
structure YawController where
  yaw_pid : PIDController :=
    { kp := 5, ki := 1/40, kd := 1, max_output := 200, min_output := -200,
      deadband := 2 }
  yaw_pwm : ℤ := 1500
deriving DecidableEq, Repr

namespace YawController

/-- The error the yaw controller feeds to its PID engine
(yaw_controller.py lines 53-61): `left_edge = edge_lengths[SOL]`,
`right_edge = edge_lengths[SAG]`, `yaw_error = right_edge - left_edge`. -/
def yawErrorOf (info : Measurement) : ℚ := info.sag - info.sol

/-- `YawController.calculate_control` (yaw_controller.py lines 37-78). -/
def calculate_control (c : YawController) (marker_info : Option Measurement)
    (now : ℚ) : ℤ × YawController :=
  match marker_info with
  | none => (1500, { c with yaw_pwm := 1500 })
  | some info =>
      let r := c.yaw_pid.compute (yawErrorOf info) now
      let pwm : ℤ := clampPwm 1100 1900 (1500 + r.1)
      (pwm, { c with yaw_pid := r.2, yaw_pwm := pwm })

end YawController

/-- State of a `ForwardController` object
(src/uuv_control/forward_controller.py). -/
structure ForwardController where
  area_pid : PIDController :=
    { kp := 1/50, ki := 1/2000, kd := 1/100, max_output := 200,
      min_output := -200, deadband := 200 }
  target_area : ℚ := 20000
  forward_pwm : ℤ := 1500
deriving DecidableEq, Repr

namespace ForwardController

/-- `ForwardController.calculate_control` (forward_controller.py lines 41-82):
error is `target_area - current_area`, PWM is `neutral_pwm + pid_output`. -/
def calculate_control (c : ForwardController) (marker_info : Option Measurement)
    (now : ℚ) : ℤ × ForwardController :=
  match marker_info with
  | none => (1500, { c with forward_pwm := 1500 })
  | some info =>
      let area_error : ℚ := c.target_area - info.area
      let r := c.area_pid.compute area_error now
      let pwm : ℤ := clampPwm 1100 1900 (1500 + r.1)
      (pwm, { c with area_pid := r.2, forward_pwm := pwm })

end ForwardController

/-- State of a `ThrottleController` object
(src/uuv_control/throttle_controller.py). -/
structure ThrottleController where
  frame_width : ℤ := 640
  frame_height : ℤ := 480
  y_pid : PIDController :=
    { kp := 2, ki := 1/50, kd := 2/5, max_output := 200, min_output := -200,
      deadband := 15 }
  throttle_pwm : ℤ := 1500
deriving DecidableEq, Repr

namespace ThrottleController

/-- `self.target_center_y = frame_height // 2`. -/
def target_center_y (c : ThrottleController) : ℤ := Int.fdiv c.frame_height 2

/-- `ThrottleController.calculate_control` (throttle_controller.py lines
47-92): error is `center_y - target_center_y`, PWM is
`neutral_pwm - pid_output` (inverted axis). -/
def calculate_control (c : ThrottleController)
    (marker_info : Option Measurement) (now : ℚ) : ℤ × ThrottleController :=
  match marker_info with
  | none => (1500, { c with throttle_pwm := 1500 })
  | some info =>
      let y_error : ℚ := (info.center.2 : ℚ) - (c.target_center_y : ℚ)
      let r := c.y_pid.compute y_error now
      let pwm : ℤ := clampPwm 1100 1900 (1500 - r.1)
      (pwm, { c with y_pid := r.2, throttle_pwm := pwm })

end ThrottleController

/-- Four corner points of one detected marker, in the source's winding order
(top-left, top-right, bottom-right, bottom-left), with rational coordinates
standing for the float32 pixel coordinates. -/
structure Corners where
  p0 : ℚ × ℚ
  p1 : ℚ × ℚ
  p2 : ℚ × ℚ
  p3 : ℚ × ℚ
deriving DecidableEq, Repr

/-- The `center` field produced by `ImageProcessor.calculate_marker_info`
(image_processor.py line 81): `points.mean(axis=0).astype(int)`, i.e. the
arithmetic mean of the four corners truncated toward zero to integers. -/
def markerCenter (c : Corners) : ℤ × ℤ :=
  (truncQ ((c.p0.1 + c.p1.1 + c.p2.1 + c.p3.1) / 4),
   truncQ ((c.p0.2 + c.p1.2 + c.p2.2 + c.p3.2) / 4))

/-- The center as the specification describes it: the exact arithmetic mean of
the four corner points, as a pair of (floating-point) numbers.  This follows
the spec's words, for comparison with `markerCenter` taken from the source. -/
def specCenter (c : Corners) : ℚ × ℚ :=
  ((c.p0.1 + c.p1.1 + c.p2.1 + c.p3.1) / 4,
   (c.p0.2 + c.p1.2 + c.p2.2 + c.p3.2) / 4)

/-- Observable state of a `PixhawkConnection` object
(src/uuv_control/pixhawk_connection.py).  `hasMaster` models
`self.master is not None`. -/
structure Pixhawk where
  connected : Bool
  hasMaster : Bool
  armed : Bool
deriving DecidableEq, Repr

/-- Behaviour of the external world during one shutdown / disarm interaction:
which external calls raise an exception and whether a disarm-confirming
heartbeat arrives within the 3-second window.  In the source, the MAVLink
sends inside `send_rc_override` and `arm`/`disarm` are wrapped in their own
try/except (so those methods absorb errors and return a status Bool), while
the OpenCV calls `cap.release()` and `cv2.destroyAllWindows()` are bare and
may propagate. -/
structure Env where
  rcSendRaises : Bool
  disarmRaises : Bool
  disarmConfirmed : Bool
  releaseRaises : Bool
  destroyRaises : Bool
deriving DecidableEq, Repr

namespace Pixhawk

/-- `PixhawkConnection.send_rc_override` (pixhawk_connection.py lines
148-183): returns False without raising when unconnected or when the MAVLink
send raises (caught internally); the object state is never changed. -/
def send_rc_override (p : Pixhawk) (ε : Env) : Bool :=
  if !p.connected || !p.hasMaster then false
  else if ε.rcSendRaises then false
  else true

/-- `PixhawkConnection.disarm` (pixhawk_connection.py lines 104-145): False
when unconnected; False (state untouched) when an exception occurs inside the
try block around the command send and the confirmation poll; otherwise True
with `armed := false` — both when a heartbeat confirms the disarm and when
the 3-second window expires unconfirmed ("return True anyway because the
command was sent"). -/
def disarm (p : Pixhawk) (ε : Env) : Bool × Pixhawk :=
  if !p.connected || !p.hasMaster then (false, p)
  else if ε.disarmRaises then (false, p)
  else if ε.disarmConfirmed then (true, { p with armed := false })
  else (true, { p with armed := false })

/-- `PixhawkConnection.disconnect` (pixhawk_connection.py lines 208-218):
when a master exists, send a neutral override, disarm if armed, then drop the
master and the connected flag.  All inner calls absorb their own errors. -/
def disconnect (p : Pixhawk) (ε : Env) : Pixhawk :=
  if p.hasMaster then
    let p1 := if p.armed then (p.disarm ε).2 else p
    { p1 with hasMaster := false, connected := false }
  else p

end Pixhawk

/-- Which of the five shutdown cleanup calls were actually made (at least
once) during one `shutdown` invocation. -/
structure Attempts where
  sendNeutral : Bool := false
  disarm : Bool := false
  disconnect : Bool := false
  release : Bool := false
  destroy : Bool := false
deriving DecidableEq, Repr

/-- No cleanup call made at all. -/
def Attempts.none : Attempts := {}

/-- Observable state of the `UUVControlSystem` object (src/uuv_control/main.py)
at shutdown time.  `capSome` models `self.cap is not None` (never reset by the
source), `capOpen` whether the camera resource is still held, `windowsOpen`
whether OpenCV windows are still up. -/
structure UUVControlSystem where
  pixhawk : Pixhawk
  capSome : Bool
  capOpen : Bool
  windowsOpen : Bool
  running : Bool
  shutting_down : Bool
deriving DecidableEq, Repr

namespace UUVControlSystem

/-- The `except` block of `UUVControlSystem.shutdown` (main.py lines 345-353):
best-effort fallback that tries the neutral override, the camera release and
the window close inside a second try whose bare `except: pass` stops at the
first exception among them.  Disarm and disconnect are not retried here. -/
def fallback (s : UUVControlSystem) (ε : Env) (a : Attempts) :
    UUVControlSystem × Attempts :=
  let a := { a with sendNeutral := a.sendNeutral || s.pixhawk.connected }
  if s.capSome then
    if ε.releaseRaises then (s, { a with release := true })
    else
      let s := { s with capOpen := false }
      if ε.destroyRaises then (s, { a with release := true, destroy := true })
      else ({ s with windowsOpen := false },
            { a with release := true, destroy := true })
  else
    if ε.destroyRaises then (s, { a with destroy := true })
    else ({ s with windowsOpen := false }, { a with destroy := true })

/-- `UUVControlSystem.shutdown` (main.py lines 294-353).  A re-entrant call
returns immediately (`if self.shutting_down: return`).  Otherwise the five
cleanup steps run in order inside one try block: (1) neutral override if
connected, (2) disarm if connected and armed, (3) disconnect if connected,
(4) camera release if a capture object exists, (5) close OpenCV windows.
Steps 1-3 absorb their errors inside `PixhawkConnection`; an exception in
step 4 or 5 jumps to the `fallback` handler.  The pair returned records the
final object state and which cleanup calls were made. -/
def shutdown (s : UUVControlSystem) (ε : Env) : UUVControlSystem × Attempts :=
  if s.shutting_down then (s, Attempts.none)
  else
    let s1 : UUVControlSystem := { s with shutting_down := true, running := false }
    let a1 : Bool := s1.pixhawk.connected
    let a2 : Bool := s1.pixhawk.connected && s1.pixhawk.armed
    let p2 : Pixhawk := if a2 then (s1.pixhawk.disarm ε).2 else s1.pixhawk
    let a3 : Bool := p2.connected
    let p3 : Pixhawk := if a3 then p2.disconnect ε else p2
    let s3 : UUVControlSystem := { s1 with pixhawk := p3 }
    let a4 : Bool := s3.capSome
    let aMain : Attempts :=
      { sendNeutral := a1, disarm := a2, disconnect := a3, release := a4 }
    if a4 && ε.releaseRaises then
      fallback s3 ε aMain
    else
      let s4 : UUVControlSystem :=
        if a4 then { s3 with capOpen := false } else s3
      if ε.destroyRaises then
        fallback s4 ε { aMain with destroy := true }
      else
        ({ s4 with windowsOpen := false }, { aMain with destroy := true })

end UUVControlSystem

/-- The yaw error as the specification's table words it: `left_edge −
right_edge`.  This follows the spec's words, for comparison with
`YawController.yawErrorOf` taken from the source. -/
def specYawError (info : Measurement) : ℚ := info.sol - info.sag

/-- A PID state inside the deadband with a large previous error, used to
exercise the anti-windup clamp on the derivative-only output. -/
def pidDead : PIDController :=
  { kp := 1, ki := 1, kd := 1, max_output := 200, min_output := -200,
    deadband := 1, previous_error := -300, integral := 5, last_time := 0 }

/-- A freshly constructed PID state with zero gains, used to exercise the
minimum-dt substitution. -/
def pidZero : PIDController := { kp := 0, ki := 0, kd := 0 }

/-- A PID configuration that saturates high on every call under the constant
error 2 with unit time steps. -/
def pidSat : PIDController :=
  { kp := 1, ki := 0, kd := 0, max_output := 1, min_output := -1, deadband := 0 }

/-- A measurement whose center lies 80 px right of the 640-px frame's center:
the lateral deadband (15 px) is exceeded on the positive side. -/
def mRight : Measurement :=
  { area := 21000, ust := 100, sag := 100, alt := 100, sol := 100,
    center := (400, 240) }

/-- A measurement whose left edge (10 px) is longer than its right edge
(3 px). -/
def mEdges : Measurement :=
  { area := 0, ust := 0, sag := 3, alt := 0, sol := 10, center := (0, 0) }

/-- The unit square as marker corners: its exact center (1/2, 1/2) is not
integral. -/
def sqCorners : Corners :=
  { p0 := (0, 0), p1 := (1, 0), p2 := (1, 1), p3 := (0, 1) }

/-- A square marker with integral center, for the truncated-mean witness. -/
def sqCorners2 : Corners :=
  { p0 := (0, 0), p1 := (2, 0), p2 := (2, 2), p3 := (0, 2) }

/-- A fully initialized running system: connected, armed, camera and display
open, shutdown not yet begun. -/
def sysRun : UUVControlSystem :=
  { pixhawk := { connected := true, hasMaster := true, armed := true },
    capSome := true, capOpen := true, windowsOpen := true,
    running := true, shutting_down := false }

/-- An environment in which the camera release raises and nothing else
fails. -/
def envRel : Env :=
  { rcSendRaises := false, disarmRaises := false, disarmConfirmed := false,
    releaseRaises := true, destroyRaises := false }

/-- An environment in which no external call fails and no disarm
confirmation arrives. -/
def envOk : Env :=
  { rcSendRaises := false, disarmRaises := false, disarmConfirmed := false,
    releaseRaises := false, destroyRaises := false }

namespace PIDController

theorem compute_config (c : PIDController) (error now : ℚ) :
    (c.compute error now).2.kp = c.kp ∧
    (c.compute error now).2.ki = c.ki ∧
    (c.compute error now).2.kd = c.kd ∧
    (c.compute error now).2.max_output = c.max_output ∧
    (c.compute error now).2.min_output = c.min_output ∧
    (c.compute error now).2.deadband = c.deadband := by
  simp only [compute]
  split_ifs <;> exact ⟨rfl, rfl, rfl, rfl, rfl, rfl⟩

theorem runConst_config (c : PIDController) (e dt : ℚ) (n : ℕ) :
    (c.runConst e dt n).max_output = c.max_output ∧
    (c.runConst e dt n).deadband = c.deadband := by
  induction n with
  | zero => exact ⟨rfl, rfl⟩
  | succ n ih =>
      have h := compute_config (c.runConst e dt n) e
        ((c.runConst e dt n).last_time + dt)
      exact ⟨h.2.2.2.1.trans ih.1, h.2.2.2.2.2.trans ih.2⟩

theorem compute_saturated_high (c : PIDController) (e now : ℚ)
    (h : c.max_output < c.rawOutput e now) :
    (c.compute e now).1 = c.max_output ∧
    (c.compute e now).2.integral = c.preIntegral e := by
  simp only [compute, if_pos h]
  refine ⟨trivial, ?_⟩
  show c.intAfterAdd e now - c.effError e * c.dtUsed now = c.preIntegral e
  unfold intAfterAdd; ring

theorem compute_fst (c : PIDController) (e now : ℚ) :
    (c.compute e now).1 =
      if c.max_output < c.rawOutput e now then c.max_output
      else if c.rawOutput e now < c.min_output then c.min_output
      else c.rawOutput e now := by
  simp only [compute]
  split_ifs <;> rfl

end PIDController

theorem clampPwm_gt_neutral (q : ℚ) (h1 : 1501 ≤ q) :
    1500 < clampPwm 1100 1900 q := by
  have h0 : (0 : ℚ) ≤ q := le_trans (by norm_num) h1
  unfold clampPwm truncQ
  rw [if_pos h0]
  have hf1 : (1501 : ℤ) ≤ ⌊q⌋ := Int.le_floor.mpr (by exact_mod_cast h1)
  omega

/-- C3: for every call with `|error| ≤ deadband`, from any prior state,
`compute` resets the integral accumulator to 0 and returns only the
derivative contribution `Kp*0 + Ki*0 + Kd*(0 − previous_error)/dt` computed
from the forced-to-zero error — clamped to `[output_min, output_max]` by the
anti-windup step when it exceeds a bound. -/
theorem C3_deadband_reset_and_derivative (c : PIDController) (e now : ℚ)
    (h : |e| ≤ c.deadband) :
    (c.compute e now).2.integral = 0 ∧
    (c.compute e now).1 =
      (if c.max_output < c.kd * ((0 - c.previous_error) / c.dtUsed now) then
        c.max_output
       else if c.kd * ((0 - c.previous_error) / c.dtUsed now) < c.min_output
       then c.min_output
       else c.kd * ((0 - c.previous_error) / c.dtUsed now)) := by
  have he : c.effError e = 0 := by simp [PIDController.effError, h]
  have hp : c.preIntegral e = 0 := by simp [PIDController.preIntegral, h]
  have hi : c.intAfterAdd e now = 0 := by
    simp [PIDController.intAfterAdd, he, hp]
  have hr : c.rawOutput e now = c.kd * ((0 - c.previous_error) / c.dtUsed now)
      := by simp [PIDController.rawOutput, he, hi]
  simp only [PIDController.compute, he, hi, hr]
  split_ifs <;> simp

/-- C3 counterexample: inside the deadband the value returned is the
derivative contribution clamped by the output bounds, not the raw formula
value.  With `Kd = 1`, `previous_error = -300`, `dt = 1` the formula
`Kd*(0 − previous_error)/dt` gives 300, but `compute` returns the clamped
200. -/
theorem C3_counterexample :
    |(0 : ℚ)| ≤ pidDead.deadband ∧
    pidDead.kd * ((0 - pidDead.previous_error) / pidDead.dtUsed 1) = 300 ∧
    (pidDead.compute 0 1).1 = 200 ∧
    (pidDead.compute 0 1).1 ≠
      pidDead.kd * ((0 - pidDead.previous_error) / pidDead.dtUsed 1) := by
  norm_num [pidDead, PIDController.compute, PIDController.dtUsed,
    PIDController.effError, PIDController.preIntegral,
    PIDController.intAfterAdd, PIDController.rawOutput]

/-- C3 witness: a concrete in-deadband call resets the integral (from 5)
to 0. -/
theorem C3_witness :
    |(0 : ℚ)| ≤ pidDead.deadband ∧ (pidDead.compute 0 1).2.integral = 0 := by
  have h : |(0 : ℚ)| ≤ pidDead.deadband := by norm_num [pidDead]
  exact ⟨h, (C3_deadband_reset_and_derivative pidDead 0 1 h).1⟩

/-- C4: when the raw PID output exceeds `output_max` (or falls below
`output_min`), the returned value is the bound and the just-applied integral
contribution is undone, leaving the accumulator at its pre-update value; and
for a sustained constant non-deadband error whose every call saturates above
`output_max`, the integral accumulator after N calls equals its initial
value, hence stays bounded. -/
theorem C4_anti_windup :
    (∀ (c : PIDController) (e now : ℚ),
        c.max_output < c.rawOutput e now →
        (c.compute e now).1 = c.max_output ∧
        (c.compute e now).2.integral = c.preIntegral e) ∧
    (∀ (c : PIDController) (e now : ℚ),
        ¬ c.max_output < c.rawOutput e now →
        c.rawOutput e now < c.min_output →
        (c.compute e now).1 = c.min_output ∧
        (c.compute e now).2.integral = c.preIntegral e) ∧
    (∀ (c : PIDController) (e dt : ℚ) (n : ℕ),
        ¬ |e| ≤ c.deadband →
        (∀ k, k < n →
          (c.runConst e dt k).max_output <
            (c.runConst e dt k).rawOutput e
              ((c.runConst e dt k).last_time + dt)) →
        (c.runConst e dt n).integral = c.integral) := by
  refine ⟨fun c e now h => PIDController.compute_saturated_high c e now h,
    ?_, ?_⟩
  · intro c e now h1 h2
    simp only [PIDController.compute, if_neg h1, if_pos h2]
    refine ⟨trivial, ?_⟩
    show c.intAfterAdd e now - c.effError e * c.dtUsed now = c.preIntegral e
    unfold PIDController.intAfterAdd; ring
  · intro c e dt n hdb
    induction n with
    | zero => intro _; rfl
    | succ n ih =>
        intro hsat
        have hs := hsat n (Nat.lt_succ_self n)
        have hstep := PIDController.compute_saturated_high _ _ _ hs
        have hdb' : ¬ |e| ≤ (c.runConst e dt n).deadband := by
          rw [(PIDController.runConst_config c e dt n).2]; exact hdb
        have hpre : (c.runConst e dt n).preIntegral e
            = (c.runConst e dt n).integral := by
          simp [PIDController.preIntegral, hdb']
        calc (c.runConst e dt (n + 1)).integral
            = (c.runConst e dt n).preIntegral e := hstep.2
          _ = (c.runConst e dt n).integral := hpre
          _ = c.integral := ih (fun k hk => hsat k (Nat.lt_succ_of_lt hk))

/-- C4 witness: with unit gain, bounds ±1 and constant error 2 every call
saturates high, and after 2 calls the integral accumulator still equals its
initial value 0. -/
theorem C4_witness : (pidSat.runConst 2 1 2).integral = pidSat.integral := by
  refine C4_anti_windup.2.2 pidSat 2 1 2 (by norm_num [pidSat]) ?_
  intro k hk
  interval_cases k <;>
    norm_num [pidSat, show (1 : ℕ) = 0 + 1 from rfl, PIDController.runConst,
      PIDController.rawOutput, PIDController.compute, PIDController.dtUsed,
      PIDController.effError, PIDController.preIntegral,
      PIDController.intAfterAdd]

/-- C8: the divisor used by `compute` for the derivative is always strictly
positive: whenever the elapsed time `now − previous_timestamp` is ≤ 0, the
fixed minimum epsilon 1e-4 is substituted for dt. -/
theorem C8_dt_always_positive (c : PIDController) (now : ℚ) :
    0 < c.dtUsed now ∧
    (now - c.last_time ≤ 0 → c.dtUsed now = 1/10000) := by
  unfold PIDController.dtUsed
  by_cases h : now - c.last_time ≤ 0
  · rw [if_pos h]
    exact ⟨by norm_num, fun _ => rfl⟩
  · rw [if_neg h]
    push_neg at h
    exact ⟨h, fun hc => absurd hc (not_le.mpr h)⟩

/-- C8 witness: a duplicate timestamp (`now = previous_timestamp = 0`) yields
the epsilon time step 1e-4, which is positive. -/
theorem C8_witness :
    (0 : ℚ) - pidZero.last_time ≤ 0 ∧
    pidZero.dtUsed 0 = 1/10000 ∧ 0 < pidZero.dtUsed 0 := by
  have h : (0 : ℚ) - pidZero.last_time ≤ 0 := by norm_num [pidZero]
  exact ⟨h, (C8_dt_always_positive pidZero 0).2 h,
    (C8_dt_always_positive pidZero 0).1⟩

/-- C1 counterexample: with the marker center 80 px right of the 640-px
frame's center (beyond the 15 px deadband) the lateral controller returns
1693, which is not less than the neutral 1500: the lateral axis maps the PID
output as `neutral + output`, not `neutral − output`. -/
theorem C1_counterexample :
    15 < (mRight.center.1 : ℚ) -
      ((LateralController.init 640 480).target_center_x : ℚ) ∧
    ((LateralController.init 640 480).calculate_control (some mRight) 1).1
      = 1693 ∧
    ¬ ((LateralController.init 640 480).calculate_control (some mRight) 1).1
      < 1500 := by
  have htc : (LateralController.init 640 480).target_center_x = 320 := by
    decide
  have hval :
      ((LateralController.init 640 480).calculate_control (some mRight) 1).1
        = 1693 := by
    rw [show (LateralController.init 640 480).calculate_control
          (some mRight) 1
        = ((clampPwm 1100 1900 (1500 + (lateralPidInit.compute
              ((mRight.center.1 : ℚ) -
                ((LateralController.init 640 480).target_center_x : ℚ)) 1).1)),
           _) from rfl]
    rw [htc]
    norm_num [mRight, lateralPidInit, PIDController.compute,
      PIDController.dtUsed, PIDController.effError, PIDController.preIntegral,
      PIDController.intAfterAdd, PIDController.rawOutput, clampPwm, truncQ,
      min_def, max_def]
  refine ⟨?_, hval, ?_⟩
  · rw [htc]; norm_num [mRight]
  · rw [hval]; norm_num

/-- C1 (amended): the lateral axis maps the PID output to PWM as
`neutral + output` (clamped after integer truncation); consequently a marker
center more than the 15 px deadband to the right of the frame center, fed to
a freshly initialized lateral controller at a positive elapsed time, yields a
PWM strictly greater than the neutral 1500. -/
theorem C1_lateral_mapping_and_sign :
    (∀ (c : LateralController) (m : Measurement) (now : ℚ),
        (c.calculate_control (some m) now).1 =
          clampPwm 1100 1900
            (1500 + (c.x_pid.compute
              ((m.center.1 : ℚ) - (c.target_center_x : ℚ)) now).1)) ∧
    (∀ (w h : ℤ) (m : Measurement) (now : ℚ),
        15 < (m.center.1 : ℚ) -
          ((LateralController.init w h).target_center_x : ℚ) →
        0 < now →
        1500 < ((LateralController.init w h).calculate_control
          (some m) now).1) := by
  constructor
  · intro c m now; rfl
  · intro w h m now h15 hnow
    rw [show ((LateralController.init w h).calculate_control (some m) now).1
        = clampPwm 1100 1900 (1500 + (lateralPidInit.compute
            ((m.center.1 : ℚ) -
              ((LateralController.init w h).target_center_x : ℚ)) now).1)
        from rfl]
    set e : ℚ := (m.center.1 : ℚ) -
      ((LateralController.init w h).target_center_x : ℚ) with he
    have he0 : (0 : ℚ) < e := lt_trans (by norm_num) h15
    have hdt : lateralPidInit.dtUsed now = now := by
      unfold PIDController.dtUsed
      rw [show lateralPidInit.last_time = 0 from rfl, sub_zero,
        if_neg hnow.not_le]
    have hdb : ¬ |e| ≤ lateralPidInit.deadband := by
      rw [show lateralPidInit.deadband = 15 from rfl, abs_of_pos he0]
      exact not_le.mpr h15
    have heff : lateralPidInit.effError e = e := by
      unfold PIDController.effError; rw [if_neg hdb]
    have hpre : lateralPidInit.preIntegral e = 0 := by
      unfold PIDController.preIntegral
      rw [if_neg hdb, show lateralPidInit.integral = 0 from rfl]
    have hint : lateralPidInit.intAfterAdd e now = e * now := by
      unfold PIDController.intAfterAdd
      rw [hpre, heff, hdt, zero_add]
    have hraw : lateralPidInit.rawOutput e now
        = 2 * e + (1/50) * (e * now) + (2/5) * (e / now) := by
      unfold PIDController.rawOutput
      rw [heff, hint, hdt, show lateralPidInit.kp = 2 from rfl,
        show lateralPidInit.ki = 1/50 from rfl,
        show lateralPidInit.kd = 2/5 from rfl,
        show lateralPidInit.previous_error = 0 from rfl]
      ring
    have h30 : 30 < lateralPidInit.rawOutput e now := by
      rw [hraw]
      have t1 : 0 < (1/50 : ℚ) * (e * now) :=
        mul_pos (by norm_num) (mul_pos he0 hnow)
      have t2 : 0 < (2/5 : ℚ) * (e / now) :=
        mul_pos (by norm_num) (div_pos he0 hnow)
      linarith
    rw [PIDController.compute_fst]
    by_cases hc : lateralPidInit.max_output < lateralPidInit.rawOutput e now
    · rw [if_pos hc]
      apply clampPwm_gt_neutral
      rw [show lateralPidInit.max_output = 200 from rfl]
      norm_num
    · rw [if_neg hc]
      have hmin : ¬ lateralPidInit.rawOutput e now
          < lateralPidInit.min_output := by
        rw [show lateralPidInit.min_output = -200 from rfl]
        push_neg
        linarith
      rw [if_neg hmin]
      apply clampPwm_gt_neutral
      linarith

/-- C1 witness: the concrete 80 px-right measurement from the initial state
at `now = 1` yields a PWM strictly above neutral. -/
theorem C1_witness :
    15 < (mRight.center.1 : ℚ) -
      ((LateralController.init 640 480).target_center_x : ℚ) ∧
    (0 : ℚ) < 1 ∧
    1500 < ((LateralController.init 640 480).calculate_control
      (some mRight) 1).1 := by
  have h1 : 15 < (mRight.center.1 : ℚ) -
      ((LateralController.init 640 480).target_center_x : ℚ) := by
    rw [show (LateralController.init 640 480).target_center_x = 320 from by
      decide]
    norm_num [mRight]
  exact ⟨h1, by norm_num,
    C1_lateral_mapping_and_sign.2 640 480 mRight 1 h1 (by norm_num)⟩

/-- C2 counterexample: for a marker whose left edge (10 px) is longer than
its right edge (3 px), the error the yaw controller feeds to its PID engine
is −7 (right − left), not the 7 that `left_edge − right_edge` would give. -/
theorem C2_counterexample :
    YawController.yawErrorOf mEdges = -7 ∧
    specYawError mEdges = 7 ∧
    YawController.yawErrorOf mEdges ≠ specYawError mEdges := by
  norm_num [YawController.yawErrorOf, specYawError, mEdges]

/-- C2 (amended): for every detected marker the yaw controller feeds its PID
engine the error `right_edge − left_edge` (SAG − SOL), and the resulting PWM
is `neutral + output`, truncated and clamped to the legal range. -/
theorem C2_yaw_error_and_mapping (c : YawController) (m : Measurement)
    (now : ℚ) :
    YawController.yawErrorOf m = m.sag - m.sol ∧
    (c.calculate_control (some m) now).1 =
      clampPwm 1100 1900
        (1500 + (c.yaw_pid.compute (m.sag - m.sol) now).1) :=
  ⟨rfl, rfl⟩

/-- C5: every axis controller short-circuits to the neutral PWM 1500 on a
no-detection cycle and leaves its PID engine state (integral accumulator,
previous error, previous timestamp, deadband flag) completely unchanged,
because `compute` is not invoked. -/
theorem C5_no_detection_neutral_freeze (fc : ForwardController)
    (yc : YawController) (lc : LateralController) (tc : ThrottleController)
    (now : ℚ) :
    (fc.calculate_control Option.none now).1 = 1500 ∧
    (fc.calculate_control Option.none now).2.area_pid = fc.area_pid ∧
    (yc.calculate_control Option.none now).1 = 1500 ∧
    (yc.calculate_control Option.none now).2.yaw_pid = yc.yaw_pid ∧
    (lc.calculate_control Option.none now).1 = 1500 ∧
    (lc.calculate_control Option.none now).2.x_pid = lc.x_pid ∧
    (tc.calculate_control Option.none now).1 = 1500 ∧
    (tc.calculate_control Option.none now).2.y_pid = tc.y_pid :=
  ⟨rfl, rfl, rfl, rfl, rfl, rfl, rfl, rfl⟩

/-- C9 counterexample: for the unit square the exact arithmetic mean of the
corners is (1/2, 1/2), but the `center` field produced by the adapter is the
integer pair (0, 0): the center is not the exact mean as a pair of floats. -/
theorem C9_counterexample :
    specCenter sqCorners = (1/2, 1/2) ∧
    (((markerCenter sqCorners).1 : ℚ), ((markerCenter sqCorners).2 : ℚ))
      ≠ specCenter sqCorners := by
  constructor
  · norm_num [specCenter, sqCorners, Prod.mk.injEq]
  · norm_num [specCenter, markerCenter, truncQ, sqCorners, Prod.ext_iff]

/-- C9 (amended): the `center` field equals the arithmetic mean of the four
corner points truncated toward zero to integers; for corners with
nonnegative mean coordinates it is the componentwise floor of the exact
mean. -/
theorem C9_center_truncated_mean (c : Corners)
    (hx : 0 ≤ (c.p0.1 + c.p1.1 + c.p2.1 + c.p3.1) / 4)
    (hy : 0 ≤ (c.p0.2 + c.p1.2 + c.p2.2 + c.p3.2) / 4) :
    markerCenter c = (⌊(specCenter c).1⌋, ⌊(specCenter c).2⌋) := by
  unfold markerCenter truncQ specCenter
  rw [if_pos hx, if_pos hy]

/-- C9 witness: the square with corners (0,0),(2,0),(2,2),(0,2) has exact
mean (1,1) and the adapter's center is its floor. -/
theorem C9_witness :
    (0 : ℚ) ≤ (sqCorners2.p0.1 + sqCorners2.p1.1 + sqCorners2.p2.1
      + sqCorners2.p3.1) / 4 ∧
    (0 : ℚ) ≤ (sqCorners2.p0.2 + sqCorners2.p1.2 + sqCorners2.p2.2
      + sqCorners2.p3.2) / 4 ∧
    markerCenter sqCorners2
      = (⌊(specCenter sqCorners2).1⌋, ⌊(specCenter sqCorners2).2⌋) := by
  refine ⟨by norm_num [sqCorners2], by norm_num [sqCorners2],
    C9_center_truncated_mean sqCorners2 (by norm_num [sqCorners2])
      (by norm_num [sqCorners2])⟩

theorem shutdown_sets_flag (s : UUVControlSystem) (ε : Env) :
    (s.shutdown ε).1.shutting_down = true := by
  rcases s with ⟨⟨pc, pm, pa⟩, cs, co, wo, ru, sd⟩
  rcases ε with ⟨e1, e2, e3, e4, e5⟩
  cases sd <;> cases pc <;> cases pm <;> cases pa <;> cases cs <;>
    cases e2 <;> cases e3 <;> cases e4 <;> cases e5 <;> rfl

/-- C6: invoking the shutdown sequence a second time after it has already
run is a no-op: the second call returns the state unchanged and makes no
cleanup call at all (the `shutting_down` guard short-circuits it). -/
theorem C6_shutdown_idempotent (s : UUVControlSystem) (ε : Env) :
    UUVControlSystem.shutdown (UUVControlSystem.shutdown s ε).1 ε
      = ((UUVControlSystem.shutdown s ε).1, Attempts.none) := by
  have h : (UUVControlSystem.shutdown s ε).1.shutting_down = true :=
    shutdown_sets_flag s ε
  generalize (UUVControlSystem.shutdown s ε).1 = t at h ⊢
  unfold UUVControlSystem.shutdown
  rw [if_pos h]

/-- C7 counterexample: from a fully initialized running system, if the
camera-release call raises, the window-close step is never attempted — not
in the main sequence and not in the fallback (whose bare except stops at the
re-raised release) — so an exception in step 4 does prevent step 5, and the
display windows stay open. -/
theorem C7_counterexample :
    (sysRun.shutdown envRel).2.release = true ∧
    (sysRun.shutdown envRel).2.destroy = false ∧
    (sysRun.shutdown envRel).1.windowsOpen = true :=
  ⟨rfl, rfl, rfl⟩

/-- C7 (amended): during one shutdown from a connected, armed system with a
camera object, the neutral-command, disarm, disconnect and camera-release
steps are always attempted (steps 1-3 absorb their errors inside the
actuator-link methods and cannot raise), but the window-close step is
attempted exactly when the camera release does not raise: an exception there
aborts the main sequence and the fallback stops at the same failing release,
never re-attempting disarm or disconnect. -/
theorem C7_cleanup_attempts (s : UUVControlSystem) (ε : Env)
    (h0 : s.shutting_down = false) (h1 : s.pixhawk.connected = true)
    (h2 : s.pixhawk.hasMaster = true) (h3 : s.pixhawk.armed = true)
    (h4 : s.capSome = true) :
    (s.shutdown ε).2 =
      { sendNeutral := true, disarm := true, disconnect := true,
        release := true, destroy := !ε.releaseRaises } := by
  rcases s with ⟨⟨pc, pm, pa⟩, cs, co, wo, ru, sd⟩
  rcases ε with ⟨e1, e2, e3, e4, e5⟩
  simp only at h0 h1 h2 h3 h4
  subst h0 h1 h2 h3 h4
  cases e1 <;> cases e2 <;> cases e3 <;> cases e4 <;> cases e5 <;>
    cases co <;> cases wo <;> cases ru <;> rfl

/-- C7 witness: with no failing call, all five cleanup steps are attempted. -/
theorem C7_witness :
    (sysRun.shutdown envOk).2 =
      { sendNeutral := true, disarm := true, disconnect := true,
        release := true, destroy := !envOk.releaseRaises } :=
  C7_cleanup_attempts sysRun envOk rfl rfl rfl rfl rfl

/-- C10: `disarm` returns True and clears the armed flag whenever the
connection exists and the command exchange does not raise — even when no
heartbeat confirming the disarm arrives within the 3-second window — and it
returns False exactly when there is no connection, no MAVLink master, or the
exchange raises. -/
theorem C10_disarm_returns_true (p : Pixhawk) (ε : Env) :
    (p.connected = true → p.hasMaster = true → ε.disarmRaises = false →
      (p.disarm ε).1 = true ∧ (p.disarm ε).2.armed = false) ∧
    ((p.disarm ε).1 = false ↔
      (p.connected = false ∨ p.hasMaster = false ∨ ε.disarmRaises = true)) := by
  rcases p with ⟨pc, pm, pa⟩
  rcases ε with ⟨e1, e2, e3, e4, e5⟩
  cases pc <;> cases pm <;> cases e2 <;> cases e3 <;>
    simp [Pixhawk.disarm]

/-- C10 witness: a connected, armed vehicle with an unconfirmed disarm (no
heartbeat within the window, `disarmConfirmed = false`) still gets
`(true, disarmed)`. -/
theorem C10_witness :
    (Pixhawk.disarm
        { connected := true, hasMaster := true, armed := true } envOk).1
      = true ∧
    (Pixhawk.disarm
        { connected := true, hasMaster := true, armed := true } envOk).2.armed
      = false :=
  (C10_disarm_returns_true
    { connected := true, hasMaster := true, armed := true } envOk).1
    rfl rfl rfl
